import Mathlib

/-!
Shallow embedding of the `chat-express` real-time chat backend:
the cluster-aware socket handler (`ChatHandler` in the revision with Redis
pub/sub fanout and delivery/read tracking) and the HTTP chat controller
(`ChatController`).

Conventions:
* user ids and chat ids are `String` (Mongo ObjectIds serialised as strings);
  message ids are `Nat`; timestamps (`Date.now()`, `new Date()`) are `Nat`.
* MongoDB documents become Lean structures; a collection is a `List` of
  documents; `updateMany` / `findOneAndUpdate` become list transformations.
* The MongoDB positional operator `$` selects a single array element per
  matching document. When the query has exactly one (non-negated) condition
  on the array field, `$` is the first element satisfying that condition.
  A negated condition (`$ne`) does not bind a position, so in a query mixing
  `{'status.userId': {$ne: u}}` with `{'status.isDelivered': false}` the
  position comes from the non-negated condition alone: the first element with
  `isDelivered = false`.  In every case at most ONE element per document is
  rewritten by a `$` update.
-/

namespace ChatExpress

/-- One per-recipient delivery record of a message
(`status` array entry in `message.model.ts`). -/
structure DeliveryRecord where
  userId : String
  isSent : Bool
  isDelivered : Bool
  isRead : Bool
  deliveredAt : Option Nat := none
  readAt : Option Nat := none
  deriving DecidableEq, Repr

/-- A persisted `Message` document (the fields the handler logic touches). -/
structure MessageDoc where
  id : Nat
  chatId : String
  senderId : String
  content : String
  contentType : String
  status : List DeliveryRecord
  createdAt : Nat
  deriving DecidableEq, Repr

/-- A persisted `Chat` (conversation) document. -/
structure UserSetting where
  userId : String
  isMuted : Bool
  unreadCount : Nat
  deriving DecidableEq, Repr

structure ChatDoc where
  id : String
  isGroupChat : Bool
  name : Option String
  participants : List String
  groupAdmins : List String
  userSpecificSettings : List UserSetting
  lastMessage : Option Nat := none
  deriving DecidableEq, Repr

/-! ## Delivery state machine: record initialisation (`handleNewMessage`) -/

/-- `chat.participants.map(participantId => ({userId, isSent: participantId
=== userId, isDelivered: false, isRead: false}))` — the status array built by
`handleNewMessage` before `Message.create`. -/
def initStatus (participants : List String) (senderId : String) :
    List DeliveryRecord :=
  participants.map fun p =>
    { userId := p
      isSent := p == senderId
      isDelivered := false
      isRead := false }

/-! ## Delivery state machine: join-time delivery marking (`handleJoinChat`)

`handleJoinChat` runs
`Message.updateMany({chatId, 'status.userId': {$ne: userId},
'status.isDelivered': false}, {$set: {'status.$.isDelivered': true,
'status.$.deliveredAt': new Date()}})`.
Mongo's `$ne` over the array path `status.userId` is a negation: the document
matches only when NO status element has `userId = userId` (and some element
has `isDelivered = false`). On a match, the positional `$` rewrites the first
element with `isDelivered = false` (a negated condition binds no position,
so the position comes from the `isDelivered` clause). -/

/-- Rewrite the first record with `isDelivered = false` to delivered;
the action of the positional `$set` of `handleJoinChat` on one document. -/
def deliverFirstUndelivered (now : Nat) :
    List DeliveryRecord → List DeliveryRecord
  | [] => []
  | r :: rs =>
    if r.isDelivered then r :: deliverFirstUndelivered now rs
    else { r with isDelivered := true, deliveredAt := some now } :: rs

/-- Does a message document match the `updateMany` filter of
`handleJoinChat`? -/
def joinFilterMatches (m : MessageDoc) (chatId joinerId : String) : Bool :=
  m.chatId == chatId
    && !(m.status.any (fun s => s.userId == joinerId))
    && m.status.any (fun s => !s.isDelivered)

/-- The `Message.updateMany` of `handleJoinChat` over the message
collection. -/
def joinChatUpdateMany (msgs : List MessageDoc) (chatId joinerId : String)
    (now : Nat) : List MessageDoc :=
  msgs.map fun m =>
    if joinFilterMatches m chatId joinerId then
      { m with status := deliverFirstUndelivered now m.status }
    else m

/-! ## Delivery state machine: read marking (`handleMessageRead`) -/

/-- Rewrite the first record of the given user to read; the action of the
positional `$set` of `findOneAndUpdate({_id, 'status.userId': userId}, ...)`
in `handleMessageRead` on the matched document. -/
def setReadFirst (uid : String) (now : Nat) :
    List DeliveryRecord → List DeliveryRecord
  | [] => []
  | r :: rs =>
    if r.userId == uid then { r with isRead := true, readAt := some now } :: rs
    else r :: setReadFirst uid now rs

/-- Result of `handleMessageRead` on one message: the new status array and
whether `message:read` was emitted locally and published on the `status`
channel. -/
structure ReadOutcome where
  status : List DeliveryRecord
  emitted : Bool
  deriving DecidableEq, Repr

/-- `handleMessageRead` after the message was found: look up
`message.status.find(s => s.userId === userId)`; if that record exists and
`isRead`, return without emitting; otherwise apply the positional update and
emit/publish `message:read`. -/
def handleMessageRead (status : List DeliveryRecord) (uid : String)
    (now : Nat) : ReadOutcome :=
  match status.find? (fun s => s.userId == uid) with
  | some s =>
    if s.isRead then { status := status, emitted := false }
    else { status := setReadFirst uid now status, emitted := true }
  | none =>
    -- no record for the user: `findOneAndUpdate` matches nothing,
    -- yet the handler still emits `message:read`.
    { status := status, emitted := true }

/-! ## Bulk read marking (`handleBulkMessageRead`)

`Message.updateMany({_id: {$in: messageIds}, 'status.userId': userId,
'status.isRead': false}, {$set: {'status.$.isRead': true, ...}})`, then it
ALWAYS emits and publishes `messages:read` — there is no already-read
short-circuit. The positional `$` again rewrites one element per document:
the first with `isRead = false` (position from the last array condition). -/

/-- Rewrite the first record with `isRead = false` to read. -/
def readFirstUnread (now : Nat) :
    List DeliveryRecord → List DeliveryRecord
  | [] => []
  | r :: rs =>
    if r.isRead then r :: readFirstUnread now rs
    else { r with isRead := true, readAt := some now } :: rs

/-- Filter of the bulk `updateMany`. -/
def bulkFilterMatches (m : MessageDoc) (messageIds : List Nat)
    (uid : String) : Bool :=
  messageIds.contains m.id
    && m.status.any (fun s => s.userId == uid)
    && m.status.any (fun s => !s.isRead)

/-- Result of `handleBulkMessageRead`: the updated collection and whether
`messages:read` was emitted locally and published. -/
structure BulkReadOutcome where
  msgs : List MessageDoc
  emitted : Bool
  deriving DecidableEq, Repr

def handleBulkMessageRead (msgs : List MessageDoc) (messageIds : List Nat)
    (uid : String) (now : Nat) : BulkReadOutcome :=
  { msgs := msgs.map fun m =>
      if bulkFilterMatches m messageIds uid then
        { m with status := readFirstUnread now m.status }
      else m
    emitted := true }

/-! ## Fanout bus: envelopes and the subscriber loop guard
(`PubSubMessage`, `publishToCluster`, `setupRedisSubscriptions`) -/

/-- The wire envelope `PubSubMessage`. -/
structure PubSubMessage where
  type : String
  room : String
  event : String
  payload : String
  serverId : String
  timestamp : Nat
  deriving DecidableEq, Repr

/-- `publishToCluster`: wrap the arguments plus this process's `serverId`
and the current time into a `PubSubMessage`. -/
def publishToCluster (selfServerId : String) (channel room event payload :
    String) (now : Nat) : PubSubMessage :=
  { type := (channel.splitOn ":").getD 1 ""
    room := room
    event := event
    payload := payload
    serverId := selfServerId
    timestamp := now }

/-- A local emission `io.to(room).emit(event, payload)` performed by the
subscriber callback. -/
structure LocalEmit where
  room : String
  event : String
  payload : String
  deriving DecidableEq, Repr

/-- The `redisSubscriber.on('message', ...)` callback of
`setupRedisSubscriptions`: drop envelopes whose `serverId` equals our own,
otherwise re-emit the event to the named local room. -/
def handleEnvelope (selfServerId : String) (data : PubSubMessage) :
    Option LocalEmit :=
  if data.serverId == selfServerId then none
  else some { room := data.room, event := data.event, payload := data.payload }

/-! ## The message:send handler (`handleNewMessage`)

Modelled as a state transformer over the durable store together with an
ordered trace of the externally visible actions the handler performs, in
source order: persist the message (`Message.create` — awaited), update the
chat's `lastMessage` (`findByIdAndUpdate` — awaited), emit `message:new` to
the local room, publish to the `chat:messages` channel, append to the Redis
recent-message cache. On a missing chat: emit `message:error` to the sending
socket only, touching nothing. -/

inductive Action where
  /-- `Message.create(...)` resolved: message persisted durably. -/
  | persistMessage (msgId : Nat)
  /-- `Chat.findByIdAndUpdate(chatId, {lastMessage, updatedAt})`. -/
  | updateLastMessage (chatId : String) (msgId : Nat)
  /-- `io.to(room).emit(event, ...)` — local room broadcast. -/
  | emitRoom (room : String) (event : String)
  /-- `publishToCluster(channel, room, event, ...)` — fanout bus publish. -/
  | publishBus (channel : String) (room : String) (event : String)
  /-- `RedisUtils.addToSortedSet('chat:<id>:messages', now, msg)`. -/
  | cacheAdd (chatId : String) (msgId : Nat)
  /-- `socket.emit('message:error', ...)` — to the sending socket only. -/
  | emitError (event : String)
  deriving DecidableEq, Repr

/-- The durable store plus the recent-message cache. -/
structure Store where
  chats : List ChatDoc
  messages : List MessageDoc
  /-- entries of the Redis sorted sets `chat:<id>:messages`:
  (chatId, score, messageId). -/
  cache : List (String × Nat × Nat)
  deriving DecidableEq, Repr

/-- `message:send` payload. -/
structure MessagePayload where
  chatId : String
  content : String
  contentType : String
  deriving DecidableEq, Repr

/-- `handleNewMessage(socket, payload)` for sender `uid`; `newId` stands for
the ObjectId Mongo mints for the created message, `now` for the clock.
Returns the store after the handler and the ordered action trace. -/
def handleNewMessage (st : Store) (uid : String) (payload : MessagePayload)
    (newId : Nat) (now : Nat) : Store × List Action :=
  match st.chats.find? (fun c => c.id == payload.chatId) with
  | none => (st, [.emitError "message:error"])
  | some chat =>
    let message : MessageDoc :=
      { id := newId
        chatId := payload.chatId
        senderId := uid
        content := payload.content
        contentType := payload.contentType
        status := initStatus chat.participants uid
        createdAt := now }
    let st' : Store :=
      { chats := st.chats.map fun c =>
          if c.id == payload.chatId then
            { c with lastMessage := some newId } else c
        messages := st.messages ++ [message]
        cache := st.cache ++ [(payload.chatId, now, newId)] }
    (st',
      [ .persistMessage newId
      , .updateLastMessage payload.chatId newId
      , .emitRoom ("chat:" ++ payload.chatId) "message:new"
      , .publishBus "chat:messages" ("chat:" ++ payload.chatId) "message:new"
      , .cacheAdd payload.chatId newId ])

/-- Is an action a persistence of the message to the durable store? -/
def Action.isPersist : Action → Bool
  | .persistMessage _ => true
  | _ => false

/-- Is an action a local room emission or a fanout bus publication? -/
def Action.isBroadcast : Action → Bool
  | .emitRoom _ _ => true
  | .publishBus _ _ _ => true
  | _ => false

/-- `p` holds at position `i` of the trace. -/
def actionAt (tr : List Action) (p : Action → Bool) (i : Nat) : Prop :=
  match tr.get? i with
  | some a => p a = true
  | none => False

/-! ## HTTP controller (`chat.controller.ts`) -/

/-- `[...new Set(l)]` — deduplicate keeping first occurrences (later
duplicates of an element are dropped). -/
def dedupFirst : List String → List String
  | [] => []
  | x :: xs => x :: (dedupFirst xs).filter (fun y => y ≠ x)

/-- Outcome of `ChatController.createChat`. -/
inductive CreateChatResult where
  /-- HTTP 400 with the given message; nothing created. -/
  | badRequest (msg : String)
  /-- HTTP 200 `Chat already exists`: the found 1:1 chat is returned. -/
  | existing (chat : ChatDoc)
  /-- HTTP 201: the freshly created chat. -/
  | created (chat : ChatDoc)
  deriving DecidableEq, Repr

/-- The Mongo filter `{isGroupChat: false, participants:
{$all: allParticipants, $size: 2}}` of the 1:1 dedup lookup. -/
def oneToOneFilter (allParticipants : List String) (c : ChatDoc) : Bool :=
  !c.isGroupChat && c.participants.length == 2
    && allParticipants.all (fun p => c.participants.contains p)

/-- `ChatController.createChat` for the authenticated user `userId` with body
`{participants, isGroupChat, name}`; `newId` stands for the ObjectId Mongo
mints when a chat is inserted. Returns the HTTP outcome and the chat
collection afterwards. -/
def createChat (db : List ChatDoc) (newId : String) (userId : String)
    (participants : List String) (isGroupChat : Bool) (name : Option String) :
    CreateChatResult × List ChatDoc :=
  let allParticipants := dedupFirst (participants ++ [userId])
  let mkChat : ChatDoc :=
    { id := newId
      isGroupChat := isGroupChat
      name := if isGroupChat then name else none
      participants := allParticipants
      groupAdmins := if isGroupChat then [userId] else []
      userSpecificSettings := allParticipants.map fun p =>
        { userId := p, isMuted := false, unreadCount := 0 } }
  if isGroupChat then
    match name with
    | none => (.badRequest "Group chat name is required", db)
    | some _ =>
      if allParticipants.length < 3 then
        (.badRequest "Group chat requires at least 3 participants", db)
      else (.created mkChat, db ++ [mkChat])
  else
    if allParticipants.length ≠ 2 then
      (.badRequest "One-on-one chat must have exactly 2 participants", db)
    else
      match db.find? (oneToOneFilter allParticipants) with
      | some c => (.existing c, db)
      | none => (.created mkChat, db ++ [mkChat])

/-- The sort key of `Message.find(...).sort({createdAt: -1})`:
newest first. -/
def createdDesc (a b : MessageDoc) : Prop := b.createdAt ≤ a.createdAt

instance : DecidableRel createdDesc := fun a b =>
  inferInstanceAs (Decidable (b.createdAt ≤ a.createdAt))

instance : IsTotal MessageDoc createdDesc :=
  ⟨fun a b => Nat.le_total b.createdAt a.createdAt⟩

instance : IsTrans MessageDoc createdDesc :=
  ⟨fun _ _ _ h h' => Nat.le_trans h' h⟩

/-- Outcome of `ChatController.getChatMessages`. -/
inductive MessagesResult where
  /-- HTTP 404 `Chat not found or you are not a participant`; no data. -/
  | notFound
  /-- HTTP 200 with the message page. -/
  | ok (msgs : List MessageDoc)
  deriving DecidableEq, Repr

/-- `ChatController.getChatMessages`: require a chat with the given id having
the requester among its participants (`Chat.findOne({_id, participants:
userId})`), else 404; on success return
`Message.find({chatId}).sort({createdAt: -1}).limit(50)`. -/
def getChatMessages (chats : List ChatDoc) (msgs : List MessageDoc)
    (userId chatId : String) : MessagesResult :=
  match chats.find?
      (fun c => c.id == chatId && c.participants.contains userId) with
  | none => .notFound
  | some _ =>
    .ok ((List.insertionSort createdDesc
      (msgs.filter (fun m => m.chatId == chatId))).take 50)

/-! ## Theorems -/

/-- C5: an envelope whose `serverId` equals the receiving process's own id is
discarded by the subscriber callback with no local emission; in particular an
envelope built by this process's own `publishToCluster`, echoed back, never
produces a second local emission. -/
theorem envelope_loop_guard (selfId : String) (data : PubSubMessage)
    (h : data.serverId = selfId) :
    handleEnvelope selfId data = none ∧
    ∀ channel room event payload now,
      handleEnvelope selfId
        (publishToCluster selfId channel room event payload now) = none := by
  refine ⟨?_, ?_⟩
  · simp [handleEnvelope, h]
  · intro channel room event payload now
    simp [handleEnvelope, publishToCluster]

/-- Witness for C5 at a concrete envelope published by server `s1`. -/
theorem envelope_loop_guard_witness :
    (publishToCluster "s1" "chat:messages" "chat:c1" "message:new" "p" 7
        ).serverId = "s1" ∧
    handleEnvelope "s1"
      (publishToCluster "s1" "chat:messages" "chat:c1" "message:new" "p" 7)
      = none :=
  ⟨rfl, (envelope_loop_guard "s1" _ rfl).1⟩

/-- C7: when `message:send` names a chat id that matches no stored chat,
`handleNewMessage` leaves the store untouched (nothing persisted, no
last-message update, no cache entry) and its entire action trace is a single
`message:error` emission to the sending socket: no room emission and no
fanout publication occur. -/
theorem newMessage_notFound_no_state_change (st : Store) (uid : String)
    (payload : MessagePayload) (newId now : Nat)
    (hc : st.chats.find? (fun c => c.id == payload.chatId) = none) :
    handleNewMessage st uid payload newId now
      = (st, [Action.emitError "message:error"]) := by
  simp [handleNewMessage, hc]

/-- Witness for C7: a store holding only chat `c1`, a send naming `c2`. -/
theorem newMessage_notFound_no_state_change_witness :
    handleNewMessage
      { chats := [{ id := "c1", isGroupChat := false, name := none
                    participants := ["u1", "u2"], groupAdmins := []
                    userSpecificSettings := [] }]
        messages := [], cache := [] }
      "u1" { chatId := "c2", content := "hi", contentType := "text" } 1 5
      = ({ chats := [{ id := "c1", isGroupChat := false, name := none
                       participants := ["u1", "u2"], groupAdmins := []
                       userSpecificSettings := [] }]
           messages := [], cache := [] },
         [Action.emitError "message:error"]) :=
  newMessage_notFound_no_state_change _ _ _ _ _ (by decide)

/-- C6: when the chat exists, the action trace of `handleNewMessage` has the
durable persistence of the message at a position strictly before every local
room emission and every fanout bus publication: the awaited `Message.create`
completes before `message:new` is emitted locally and before the envelope is
published. -/
theorem newMessage_persist_before_broadcast (st : Store) (uid : String)
    (payload : MessagePayload) (newId now : Nat)
    (hc : (st.chats.find? (fun c => c.id == payload.chatId)).isSome) :
    ∃ i, actionAt (handleNewMessage st uid payload newId now).2
        Action.isPersist i ∧
      ∀ j, actionAt (handleNewMessage st uid payload newId now).2
          Action.isBroadcast j → i < j := by
  obtain ⟨c, hc⟩ := Option.isSome_iff_exists.mp hc
  refine ⟨0, ?_, ?_⟩
  · simp [handleNewMessage, hc, actionAt, Action.isPersist]
  · intro j hj
    match j with
    | 0 =>
      exfalso
      simp [handleNewMessage, hc, actionAt, Action.isBroadcast] at hj
    | n + 1 => exact Nat.succ_pos n

/-- Witness for C6 at a concrete store where chat `c1` exists. -/
theorem newMessage_persist_before_broadcast_witness :
    ∃ i, actionAt (handleNewMessage
        { chats := [{ id := "c1", isGroupChat := false, name := none
                      participants := ["u1", "u2"], groupAdmins := []
                      userSpecificSettings := [] }]
          messages := [], cache := [] }
        "u1" { chatId := "c1", content := "hi", contentType := "text" }
        1 5).2 Action.isPersist i ∧
      ∀ j, actionAt (handleNewMessage
          { chats := [{ id := "c1", isGroupChat := false, name := none
                        participants := ["u1", "u2"], groupAdmins := []
                        userSpecificSettings := [] }]
            messages := [], cache := [] }
          "u1" { chatId := "c1", content := "hi", contentType := "text" }
          1 5).2 Action.isBroadcast j → i < j :=
  newMessage_persist_before_broadcast _ _ _ _ _ (by decide)

/-- C2: the status array built by `handleNewMessage` has the participants as
its user ids (hence, participants being distinct, exactly one record per
participant), the sender's record carries `isSent = true`, and every other
participant's record has `isSent = false`, `isDelivered = false`,
`isRead = false`. -/
theorem sendStatus_one_record_per_participant (participants : List String)
    (sender : String) (hnd : participants.Nodup)
    (hs : sender ∈ participants) :
    (initStatus participants sender).map DeliveryRecord.userId = participants
    ∧ (∀ p ∈ participants,
        ((initStatus participants sender).filter
          (fun r => r.userId == p)).length = 1)
    ∧ (∃ r ∈ initStatus participants sender,
        r.userId = sender ∧ r.isSent = true)
    ∧ (∀ r ∈ initStatus participants sender, r.userId ≠ sender →
        r.isSent = false ∧ r.isDelivered = false ∧ r.isRead = false) := by
  refine ⟨?_, ?_, ?_, ?_⟩
  · clear hnd hs
    induction participants with
    | nil => rfl
    | cons a t ih =>
      simp only [initStatus, List.map_cons] at ih ⊢
      rw [ih]
  · intro p hp
    rw [← List.countP_eq_length_filter, initStatus, List.countP_map]
    have hone : participants.count p = 1 := List.count_eq_one_of_mem hnd hp
    simpa [List.count, Function.comp] using hone
  · simp only [initStatus]
    refine ⟨_, List.mem_map_of_mem _ hs, rfl, by simp⟩
  · simp only [initStatus]
    intro r hr hne
    obtain ⟨q, hq, rfl⟩ := List.mem_map.mp hr
    refine ⟨?_, rfl, rfl⟩
    simpa using hne

/-- Witness for C2: participants `["u1", "u2"]`, sender `u1`. -/
theorem sendStatus_one_record_per_participant_witness :
    ((["u1", "u2"] : List String).Nodup ∧ "u1" ∈ (["u1", "u2"] : List String))
    ∧ (initStatus ["u1", "u2"] "u1").map DeliveryRecord.userId
        = ["u1", "u2"] :=
  ⟨⟨by decide, by decide⟩,
    (sendStatus_one_record_per_participant ["u1", "u2"] "u1"
      (by decide) (by decide)).1⟩

/-- After `setReadFirst`, the first record of `uid` is the old one with
`isRead := true, readAt := some now`. -/
theorem find?_setReadFirst (status : List DeliveryRecord) (uid : String)
    (now : Nat) (s : DeliveryRecord)
    (h : status.find? (fun r => r.userId == uid) = some s) :
    (setReadFirst uid now status).find? (fun r => r.userId == uid)
      = some { s with isRead := true, readAt := some now } := by
  induction status with
  | nil => simp at h
  | cons r rs ih =>
    by_cases hr : (r.userId == uid) = true
    · rw [@List.find?_cons_of_pos _ (fun x => x.userId == uid) r rs hr] at h
      obtain rfl : r = s := by injection h
      simp only [setReadFirst, if_pos hr]
      exact @List.find?_cons_of_pos _ (fun x => x.userId == uid)
        { r with isRead := true, readAt := some now } rs hr
    · rw [@List.find?_cons_of_neg _ (fun x => x.userId == uid) r rs hr] at h
      simp only [setReadFirst, if_neg hr]
      rw [@List.find?_cons_of_neg _ (fun x => x.userId == uid) r
        (setReadFirst uid now rs) hr]
      exact ih h

/-- C3: `handleMessageRead` is idempotent on the stored records: for a
message holding a delivery record for the user, a second invocation for the
same (message, user) pair leaves the status array exactly as the first left
it, and the second invocation emits nothing. -/
theorem messageRead_idempotent (status : List DeliveryRecord) (uid : String)
    (t₁ t₂ : Nat)
    (h : (status.find? (fun r => r.userId == uid)).isSome) :
    (handleMessageRead (handleMessageRead status uid t₁).status uid t₂).status
        = (handleMessageRead status uid t₁).status
    ∧ (handleMessageRead (handleMessageRead status uid t₁).status uid
        t₂).emitted = false := by
  obtain ⟨s, hs⟩ := Option.isSome_iff_exists.mp h
  by_cases hread : s.isRead = true
  · have h1 : handleMessageRead status uid t₁
        = { status := status, emitted := false } := by
      simp [handleMessageRead, hs, hread]
    rw [h1]
    simp [handleMessageRead, hs, hread]
  · have h1 : handleMessageRead status uid t₁
        = { status := setReadFirst uid t₁ status, emitted := true } := by
      simp [handleMessageRead, hs, hread]
    rw [h1]
    have h2 := find?_setReadFirst status uid t₁ s hs
    simp [handleMessageRead, h2]

/-- Witness for C3: one unread record for `u2`. -/
theorem messageRead_idempotent_witness :
    (handleMessageRead
        (handleMessageRead
          [{ userId := "u2", isSent := false, isDelivered := true,
             isRead := false }] "u2" 3).status "u2" 8).status
      = (handleMessageRead
          [{ userId := "u2", isSent := false, isDelivered := true,
             isRead := false }] "u2" 3).status :=
  (messageRead_idempotent
    [{ userId := "u2", isSent := false, isDelivered := true,
       isRead := false }] "u2" 3 8 (by decide)).1

/-- A message of chat `c1` with TWO undelivered records, neither belonging to
user `u1`: sender `u2`'s (sent, undelivered) and `u3`'s. -/
def joinMsgA : MessageDoc :=
  { id := 1, chatId := "c1", senderId := "u2", content := "hi"
    contentType := "text"
    status := [⟨"u2", true, false, false, none, none⟩,
               ⟨"u3", false, false, false, none, none⟩]
    createdAt := 0 }

/-- A message of chat `c1` holding a record for the joiner `u1` (undelivered)
and an undelivered record for sender `u2` — the normal shape produced by
`handleNewMessage` for a 2-participant conversation. -/
def joinMsgB : MessageDoc :=
  { id := 2, chatId := "c1", senderId := "u2", content := "yo"
    contentType := "text"
    status := [⟨"u1", false, false, false, none, none⟩,
               ⟨"u2", true, false, false, none, none⟩]
    createdAt := 0 }

/-- C1 fails on the code, two ways. (a) `$ne` over the array path excludes
every message that holds ANY record for the joiner: when `u1` joins `c1`,
`joinMsgB` — the normal case, where `u1` is a participant with a record —
is left completely untouched, with `u2`'s undelivered record NOT marked
delivered. (b) On a message without a joiner record (`joinMsgA`), the
positional `$` rewrites only ONE array element: `u2`'s record becomes
delivered but `u3`'s stays undelivered, and a second identical join changes
the store again (now marking `u3`'s), so the join is not idempotent. -/
theorem joinChat_positional_update_bug :
    (joinChatUpdateMany [joinMsgB] "c1" "u1" 5 = [joinMsgB]
     ∧ ∃ m ∈ joinChatUpdateMany [joinMsgB] "c1" "u1" 5, ∃ r ∈ m.status,
         r.userId ≠ "u1" ∧ r.isDelivered = false)
    ∧ (joinChatUpdateMany [joinMsgA] "c1" "u1" 5
      = [{ joinMsgA with status := [⟨"u2", true, true, false, some 5, none⟩,
             ⟨"u3", false, false, false, none, none⟩] }]
     ∧ ∃ m ∈ joinChatUpdateMany [joinMsgA] "c1" "u1" 5, ∃ r ∈ m.status,
         r.userId ≠ "u1" ∧ r.isDelivered = false)
    ∧ joinChatUpdateMany (joinChatUpdateMany [joinMsgA] "c1" "u1" 5)
        "c1" "u1" 5 ≠ joinChatUpdateMany [joinMsgA] "c1" "u1" 5 := by
  decide

/-- A message of chat `c1` every record of which is already read. -/
def bulkMsgRead : MessageDoc :=
  { id := 1, chatId := "c1", senderId := "u1", content := "hi"
    contentType := "text"
    status := [⟨"u1", true, false, true, none, some 1⟩,
               ⟨"u2", false, true, true, some 1, some 2⟩]
    createdAt := 0 }

/-- C4 counterexample: a bulk `messages:read` by `u2` targeting a message
whose records are all already read is a no-op on the store, yet
`handleBulkMessageRead` still emits and publishes `messages:read` — the
claim's "no event is emitted ... nothing is published" is false for the bulk
handler. -/
theorem bulkRead_noop_still_emits :
    (handleBulkMessageRead [bulkMsgRead] [1] "u2" 9).msgs = [bulkMsgRead]
    ∧ (handleBulkMessageRead [bulkMsgRead] [1] "u2" 9).emitted = true := by
  decide

/-- C4 amended: the single handler behaves as claimed — an already-read
record means nothing is emitted or published, an unread record means the
positional update is persisted and `message:read` goes out locally and on the
status channel; the bulk handler, however, persists any updates and ALWAYS
emits and publishes `messages:read`, no-op or not. -/
theorem readHandlers_emission (status : List DeliveryRecord) (uid : String)
    (now : Nat) (msgs : List MessageDoc) (ids : List Nat) (uid' : String)
    (now' : Nat) (s : DeliveryRecord)
    (hfind : status.find? (fun r => r.userId == uid) = some s) :
    (s.isRead = true →
      handleMessageRead status uid now
        = { status := status, emitted := false })
    ∧ (s.isRead = false →
      (handleMessageRead status uid now).emitted = true ∧
      (handleMessageRead status uid now).status = setReadFirst uid now status)
    ∧ (handleBulkMessageRead msgs ids uid' now').emitted = true := by
  refine ⟨?_, ?_, rfl⟩
  · intro h
    simp [handleMessageRead, hfind, h]
  · intro h
    simp [handleMessageRead, hfind, h]

/-- Witness for the amended C4 at a one-record unread status. -/
theorem readHandlers_emission_witness :
    (handleMessageRead
        [⟨"u2", false, true, false, some 1, none⟩] "u2" 7).emitted = true
    ∧ (handleMessageRead
        [⟨"u2", false, true, false, some 1, none⟩] "u2" 7).status
      = setReadFirst "u2" 7 [⟨"u2", false, true, false, some 1, none⟩] :=
  (readHandlers_emission
      [⟨"u2", false, true, false, some 1, none⟩] "u2" 7 [] [] "u1" 0
      ⟨"u2", false, true, false, some 1, none⟩ (by decide)).2.1 rfl

/-- Membership is preserved by first-occurrence deduplication. -/
theorem mem_dedupFirst {x : String} : ∀ l : List String,
    x ∈ l → x ∈ dedupFirst l := by
  intro l
  induction l with
  | nil => simp
  | cons a xs ih =>
    intro hx
    rw [dedupFirst]
    rcases List.mem_cons.mp hx with rfl | hx'
    · exact List.mem_cons_self _ _
    · by_cases hax : x = a
      · subst hax
        exact List.mem_cons_self _ _
      · exact List.mem_cons_of_mem _
          (List.mem_filter.mpr ⟨ih hx', by simp [hax]⟩)

/-- Deduplication introduces no element. -/
theorem mem_of_mem_dedupFirst {x : String} : ∀ l : List String,
    x ∈ dedupFirst l → x ∈ l := by
  intro l
  induction l with
  | nil => simp [dedupFirst]
  | cons a xs ih =>
    intro hx
    rw [dedupFirst] at hx
    rcases List.mem_cons.mp hx with rfl | hx'
    · exact List.mem_cons_self _ _
    · exact List.mem_cons_of_mem _ (ih (List.mem_of_mem_filter hx'))

/-- First-occurrence deduplication yields a duplicate-free list. -/
theorem nodup_dedupFirst : ∀ l : List String, (dedupFirst l).Nodup := by
  intro l
  induction l with
  | nil => simp [dedupFirst]
  | cons a xs ih =>
    rw [dedupFirst]
    refine List.nodup_cons.mpr ⟨?_, ih.filter _⟩
    intro hmem
    have := List.mem_filter.mp hmem
    simp at this

/-- `[...new Set([b, a])] = [b, a]` for distinct users. -/
theorem dedupFirst_pair {a b : String} (h : a ≠ b) :
    dedupFirst [b, a] = [b, a] := by
  simp [dedupFirst, h]

/-- C8: `createChat` deduplicates 1:1 pairs and enforces participant counts:
a first 1:1 creation between distinct users `a` and `b` (no such pair chat
stored yet) inserts a chat, and repeating the same request returns that very
chat (same id) without inserting; a group creation whose deduplicated
participant set has size 2 is rejected with HTTP 400; with size 3 and a name
it succeeds. -/
theorem createChat_dedup_and_participant_counts :
    (∀ (db : List ChatDoc) (n₁ n₂ a b : String), a ≠ b →
      db.find? (oneToOneFilter [b, a]) = none →
      ∃ c, createChat db n₁ a [b] false none
            = (.created c, db ++ [c])
        ∧ c.id = n₁
        ∧ createChat (db ++ [c]) n₂ a [b] false none
            = (.existing c, db ++ [c]))
    ∧ (∀ (db : List ChatDoc) (n u nm : String) (ps : List String),
        (dedupFirst (ps ++ [u])).length = 2 →
        createChat db n u ps true (some nm)
          = (.badRequest "Group chat requires at least 3 participants", db))
    ∧ (∀ (db : List ChatDoc) (n u nm : String) (ps : List String),
        (dedupFirst (ps ++ [u])).length = 3 →
        ∃ c, createChat db n u ps true (some nm)
          = (.created c, db ++ [c])) := by
  refine ⟨?_, ?_, ?_⟩
  · intro db n₁ n₂ a b hab hnone
    refine ⟨{ id := n₁, isGroupChat := false, name := none
              participants := [b, a], groupAdmins := []
              userSpecificSettings :=
                [⟨b, false, 0⟩, ⟨a, false, 0⟩] }, ?_, rfl, ?_⟩
    · simp [createChat, dedupFirst_pair hab, hnone]
    · have hc : oneToOneFilter [b, a]
          { id := n₁, isGroupChat := false, name := none
            participants := [b, a], groupAdmins := []
            userSpecificSettings :=
              [⟨b, false, 0⟩, ⟨a, false, 0⟩] } = true := by
        simp [oneToOneFilter]
      simp [createChat, dedupFirst_pair hab, hnone, hc]
  · intro db n u nm ps h
    simp [createChat, h]
  · intro db n u nm ps h
    refine ⟨{ id := n, isGroupChat := true, name := some nm
              participants := dedupFirst (ps ++ [u]), groupAdmins := [u]
              userSpecificSettings := (dedupFirst (ps ++ [u])).map fun p =>
                { userId := p, isMuted := false, unreadCount := 0 } }, ?_⟩
    simp [createChat, h]

/-- Witness for C8 at users `a`, `b` over an empty chat collection. -/
theorem createChat_dedup_witness :
    ∃ c, createChat [] "id1" "a" ["b"] false none = (.created c, [] ++ [c])
      ∧ c.id = "id1"
      ∧ createChat ([] ++ [c]) "id2" "a" ["b"] false none
          = (.existing c, [] ++ [c]) :=
  (createChat_dedup_and_participant_counts).1 [] "id1" "id2" "a" "b"
    (by decide) rfl

/-- C9: every chat `createChat` actually creates is appended to the store
and satisfies: the authenticated requester is among its participants (even
when absent from the request's `participants`), the participant list is
duplicate-free, a group chat's `groupAdmins` is exactly the creator (hence
admins ⊆ participants), and a non-group chat has no group admins. -/
theorem createChat_created_invariants (db db' : List ChatDoc)
    (newId userId : String) (ps : List String) (g : Bool)
    (nm : Option String) (c : ChatDoc)
    (h : createChat db newId userId ps g nm = (.created c, db')) :
    db' = db ++ [c]
    ∧ userId ∈ c.participants
    ∧ c.participants.Nodup
    ∧ (g = true → c.groupAdmins = [userId]
        ∧ ∀ a ∈ c.groupAdmins, a ∈ c.participants)
    ∧ (g = false → c.groupAdmins = []) := by
  have hmem : userId ∈ dedupFirst (ps ++ [userId]) :=
    mem_dedupFirst _ (List.mem_append_right _ (List.mem_singleton.mpr rfl))
  simp only [createChat] at h
  split at h
  · rename_i hg
    split at h
    · simp at h
    · split at h
      · simp at h
      · rw [Prod.mk.injEq] at h
        obtain ⟨hc, hdb⟩ := h
        obtain rfl : _ = c := by injection hc
        refine ⟨hdb.symm, hmem, nodup_dedupFirst _, fun _ => ⟨rfl, ?_⟩,
          fun hgf => by simp [hg] at hgf⟩
        intro a ha
        obtain rfl : a = userId := List.mem_singleton.mp ha
        exact hmem
  · rename_i hg
    split at h
    · simp at h
    · split at h
      · simp at h
      · rw [Prod.mk.injEq] at h
        obtain ⟨hc, hdb⟩ := h
        obtain rfl : _ = c := by injection hc
        exact ⟨hdb.symm, hmem, nodup_dedupFirst _,
          fun hgt => by simp [hgt] at hg, fun _ => rfl⟩

/-- Witness for C9: requester `a` omitted from the participants array of a
1:1 creation request. -/
theorem createChat_created_invariants_witness :
    "a" ∈ ChatDoc.participants
      { id := "id1", isGroupChat := false, name := none
        participants := ["b", "a"], groupAdmins := []
        userSpecificSettings := [⟨"b", false, 0⟩, ⟨"a", false, 0⟩] } :=
  (createChat_created_invariants []
    [{ id := "id1", isGroupChat := false, name := none
       participants := ["b", "a"], groupAdmins := []
       userSpecificSettings := [⟨"b", false, 0⟩, ⟨"a", false, 0⟩] }]
    "id1" "a" ["b"] false none
    { id := "id1", isGroupChat := false, name := none
      participants := ["b", "a"], groupAdmins := []
      userSpecificSettings := [⟨"b", false, 0⟩, ⟨"a", false, 0⟩] }
    (by decide)).2.1

/-- C10: `getChatMessages` answers 404 exactly when no stored chat has the
requested id with the requester among its participants; on success it
returns the first 50 entries of the conversation's messages sorted newest
first: at most 50 messages, all of the conversation, and extendable to a
createdAt-descending reordering of the conversation's full message list
(so the page is the most recent ones). -/
theorem getChatMessages_spec (chats : List ChatDoc) (msgs : List MessageDoc)
    (u cid : String) :
    (chats.find? (fun c => c.id == cid && c.participants.contains u) = none →
      getChatMessages chats msgs u cid = .notFound)
    ∧ ∀ c, chats.find? (fun c => c.id == cid && c.participants.contains u)
          = some c →
      ∃ page rest,
        getChatMessages chats msgs u cid = .ok page
        ∧ page.length ≤ 50
        ∧ (∀ m ∈ page, m.chatId = cid)
        ∧ List.Sorted createdDesc (page ++ rest)
        ∧ (page ++ rest).Perm (msgs.filter (fun m => m.chatId == cid)) := by
  constructor
  · intro h
    rw [getChatMessages.eq_def, h]
  · intro c hc
    refine ⟨(List.insertionSort createdDesc
        (msgs.filter (fun m => m.chatId == cid))).take 50,
      (List.insertionSort createdDesc
        (msgs.filter (fun m => m.chatId == cid))).drop 50,
      ?_, ?_, ?_, ?_, ?_⟩
    · rw [getChatMessages.eq_def, hc]
    · exact List.length_take_le 50 _
    · intro m hm
      have hmem : m ∈ List.insertionSort createdDesc
          (msgs.filter (fun x => x.chatId == cid)) :=
        List.mem_of_mem_take hm
      have hfil : m ∈ msgs.filter (fun x => x.chatId == cid) :=
        (List.perm_insertionSort createdDesc _).subset hmem
      simpa using (List.mem_filter.mp hfil).2
    · rw [List.take_append_drop]
      exact List.sorted_insertionSort createdDesc _
    · rw [List.take_append_drop]
      exact List.perm_insertionSort createdDesc _

/-- Witness for C10: empty stores, requester not a participant anywhere. -/
theorem getChatMessages_spec_witness :
    getChatMessages [] [] "u1" "c1" = .notFound :=
  (getChatMessages_spec [] [] "u1" "c1").1 rfl

end ChatExpress

